import Mathlib

/-!
Verification development for the Ship-Maintenance assistant backend.

This file gives a shallow embedding, in Lean 4, of the response-strategy
decision engine of the repository (backend/rag_core.py and
backend/main.py), and proves properties of it.

Modelling conventions:
* Python strings are Lean `String`s, manipulated through their `List Char`
  data; `str.lower()` is modelled by the ASCII `asciiLower` map (all inputs
  of interest are ASCII) and `str.strip()` by `pyStrip`.
* The Python `re` regular expressions that drive the intent classifiers are
  embedded as explicit syntax trees (`RE`) together with an executable,
  fuel-bounded matcher realising `re.search` semantics (the fuel is always
  ample: each pattern node consumes at most one unit of fuel per attempted
  position, and all starred sub-patterns of the embedded regexes consume at
  least one character per iteration).
* External collaborators (the retrieval chain, the Tavily web search and
  the synthesis model) are oracles recorded in a `RagEnv`: the engine only
  ever observes their returned value or raised exception, which is exactly
  what the environment supplies.
-/

/-- ASCII lower-casing of one character, modelling `str.lower()` on the
ASCII inputs used by the classifiers. -/
def asciiLower (c : Char) : Char :=
  if 65 ≤ c.toNat ∧ c.toNat ≤ 90 then Char.ofNat (c.toNat + 32) else c

/-- Python whitespace predicate used by `str.strip()`: space, tab, newline,
carriage return, vertical tab, form feed. -/
def isPyWs (c : Char) : Bool :=
  c.toNat == 32 || c.toNat == 9 || c.toNat == 10 || c.toNat == 13 ||
  c.toNat == 11 || c.toNat == 12

/-- Python `str.strip()`: drop whitespace from both ends. -/
def pyStrip (l : List Char) : List Char :=
  List.rdropWhile isPyWs (List.dropWhile isPyWs l)

/-- Lower-cased character data of a string (`text.lower()`). -/
def lowerData (s : String) : List Char := s.data.map asciiLower

/-- Python `text.strip()` packaged on `String`. -/
def pyStripStr (s : String) : String := String.mk (pyStrip s.data)

/-- Word characters for `\w` and `\b` (Python ASCII word chars). -/
def isWordChar (c : Char) : Bool := c.isAlphanum || c == '_'

/-- Character classes appearing in the embedded regexes. -/
inductive CC where
  | ws   -- matches Python regex class of whitespace characters
  | wd   -- matches a word character
  | dg   -- matches a digit
  | dot  -- matches any character except a newline

/-- Test of a character class against one character. -/
def CC.test : CC → Char → Bool
  | .ws, c => isPyWs c
  | .wd, c => isWordChar c
  | .dg, c => c.isDigit
  | .dot, c => !(c.toNat == 10)

/-- Regular-expression syntax used by the source patterns: literals,
classes, concatenation, alternation, Kleene star, word boundary and
start-of-string anchor. -/
inductive RE where
  | eps
  | lit (c : Char)
  | cls (k : CC)
  | seq (a b : RE)
  | alt (a b : RE)
  | star (a : RE)
  | wb
  | bos

/-- Structural size of a regex, used for the fuel bound. -/
def reSize : RE → Nat
  | .eps | .lit _ | .cls _ | .wb | .bos => 1
  | .seq a b | .alt a b => reSize a + reSize b + 1
  | .star a => reSize a + 1

/-- Word-boundary test between the previous character (none at the start of
the string) and the next character in the remaining input. -/
def atBoundary (prev : Option Char) (rest : List Char) : Bool :=
  let a := match prev with
    | some c => isWordChar c
    | none => false
  let b := match rest with
    | c :: _ => isWordChar c
    | [] => false
  a != b

/-- CPS regex matcher: tries to match `r` at the current position, where
`prev` is the character immediately before the position and `s` the rest of
the input; on success the continuation is invoked with the updated
context.  Fuel bounds the recursion; starred sub-patterns only iterate on a
strictly shorter remainder, so ample fuel makes the matcher complete. -/
def reM : Nat → RE → Option Char → List Char → (Option Char → List Char → Bool) → Bool
  | 0, _, _, _, _ => false
  | fuel + 1, r, prev, s, k =>
    match r with
    | .eps => k prev s
    | .lit c =>
      match s with
      | [] => false
      | x :: xs => x == c && k (some x) xs
    | .cls cc =>
      match s with
      | [] => false
      | x :: xs => cc.test x && k (some x) xs
    | .wb => atBoundary prev s && k prev s
    | .bos => prev.isNone && k prev s
    | .seq a b => reM fuel a prev s (fun p s2 => reM fuel b p s2 k)
    | .alt a b => reM fuel a prev s k || reM fuel b prev s k
    | .star a =>
      k prev s ||
        reM fuel a prev s (fun p s2 =>
          decide (s2.length < s.length) && reM fuel (.star a) p s2 k)

/-- Ample fuel for matching `r` against remainder `s`. -/
def reFuel (r : RE) (s : List Char) : Nat := (reSize r + 2) * (s.length + 2)

/-- Does `r` match starting exactly at the current position? -/
def reMatchAt (r : RE) (prev : Option Char) (s : List Char) : Bool :=
  reM (reFuel r s) r prev s (fun _ _ => true)

/-- Scan of all start positions, tracking the preceding character for the
word-boundary and start anchors. -/
def reSearchFrom (r : RE) (prev : Option Char) (s : List Char) : Bool :=
  reMatchAt r prev s ||
    (match s with
     | [] => false
     | c :: rest => reSearchFrom r (some c) rest)

/-- Embedding of `re.search(pattern, text)` viewed as a Boolean test. -/
def reSearch (r : RE) (s : List Char) : Bool := reSearchFrom r none s

/-- Disjunction of `re.search` over a list of patterns, as used by the
classifiers (`any(re.search(p, text) for p in patterns)`). -/
def searchAny (ps : List RE) (s : List Char) : Bool :=
  ps.any (fun p => reSearch p s)

/-- Concatenation of a list of regexes. -/
def rcat : List RE → RE
  | [] => .eps
  | [a] => a
  | a :: rest => .seq a (rcat rest)

/-- Alternation of a list of regexes (never applied to an empty list). -/
def ralts : List RE → RE
  | [] => .eps
  | [a] => a
  | a :: rest => .alt a (ralts rest)

/-- Literal string regex. -/
def rlit (s : String) : RE := rcat (s.data.map RE.lit)

/-- Optional regex (`x?`). -/
def ropt (a : RE) : RE := .alt a .eps

/-- One-or-more repetitions (`x+`). -/
def rplus (a : RE) : RE := .seq a (.star a)

/-- One or more whitespace characters (`\s+`). -/
def wsp : RE := rplus (.cls .ws)

/-- Any characters (`.*`). -/
def dotstar : RE := .star (.cls .dot)

/-- Word with an optional apostrophe before a final `t`, for the patterns
written in the source in the style of `didn\'?t`. -/
def aposT (w : String) : RE := rcat [rlit w, ropt (rlit ("\x27")), rlit ("t")]

/-! ### Pattern lists of the intent classifiers (rag_core.py) -/

/-- Solved-wording patterns of `is_problem_solved` (rag_core.py lines
330-337).  Note that the third entry of the second line is written
`\tissue\s+fixed\b` in the source: it begins with a literal tab character,
embedded faithfully here. -/
def solved_patterns : List RE :=
  [ rcat [.wb, ralts [rlit ("solved"), rlit ("fixed"), rlit ("resolved"),
      rlit ("ok"), rlit ("okay"), rlit ("worked"), rlit ("working")], .wb],
    rcat [.wb, rlit ("it"), wsp, rlit ("works"), .wb],
    rcat [.wb, rlit ("problem"), wsp, ropt (rcat [rlit ("is"), wsp]), rlit ("gone"), .wb],
    rcat [rlit ("\tissue"), wsp, rlit ("fixed"), .wb],
    rcat [.wb, rlit ("that"), wsp, ralts [rlit ("did"), rlit ("fixed")], wsp,
      ralts [rlit ("it"), rcat [rlit ("the"), wsp, rlit ("trick")]], .wb],
    rcat [.bos, ralts [rlit ("yes"), rlit ("yeah"), rlit ("yep"), rlit ("affirmative")], .wb],
    rcat [ralts [rlit ("great"), rlit ("perfect"), rlit ("excellent"), rlit ("awesome"),
      rlit ("thanks"), rcat [rlit ("thank"), wsp, rlit ("you")]], dotstar, .wb,
      ralts [rlit ("it"), rlit ("that")], wsp, rlit ("worked")],
    rcat [rlit ("all"), wsp, rlit ("good"), wsp, rlit ("now")],
    rcat [rlit ("running"), wsp, rlit ("smoothly")] ]

/-- Negation patterns of `is_problem_solved` (rag_core.py line 338):
`\b(no(t)?|didn\'?t|doesn\'?t|hasn\'?t|haven\'?t|isn\'?t|aren\'t|can\'?t|couldn\'?t|still|yet)\b`. -/
def negation_patterns : List RE :=
  [ rcat [.wb, ralts [rcat [rlit ("no"), ropt (rlit ("t"))],
      aposT ("didn"), aposT ("doesn"), aposT ("hasn"), aposT ("haven"),
      aposT ("isn"), rlit ("aren\x27t"), aposT ("can"), aposT ("couldn"),
      rlit ("still"), rlit ("yet")], .wb] ]

/-- Patterns of `is_problem_not_solved` (rag_core.py lines 364-373). -/
def not_solved_patterns : List RE :=
  [ rcat [.wb, rlit ("not"), wsp, ralts [rlit ("solved"), rlit ("fixed"),
      rlit ("working"), rlit ("resolved"), rlit ("helping")], .wb],
    rcat [.wb, ralts [aposT ("didn"), aposT ("doesn"),
      rcat [rlit ("did"), wsp, rlit ("not")], rcat [rlit ("does"), wsp, rlit ("not")]],
      wsp, ralts [rlit ("work"), rlit ("help"), rlit ("fix"), rlit ("solve"),
      rlit ("change")], .wb],
    rcat [.wb, rlit ("no"), wsp, ralts [rlit ("change"), rlit ("effect"),
      rlit ("luck"), rlit ("joy"), rlit ("difference")], .wb],
    rcat [.wb, rlit ("still"), wsp, ralts [rlit ("have"), rlit ("having"),
      rlit ("seeing")], wsp, ropt (ralts [rcat [rlit ("the"), wsp],
      rcat [rlit ("an"), wsp]]), ralts [rlit ("problem"), rlit ("issue"),
      rlit ("error")], .wb],
    rcat [.wb, ralts [rlit ("same"), rlit ("persistent")], wsp,
      ralts [rlit ("problem"), rlit ("issue")], .wb],
    rcat [.bos, ralts [rlit ("no"), rlit ("nope"), rlit ("negative")], .wb],
    rcat [aposT ("didn"), wsp, ropt (rcat [rlit ("do"), wsp]),
      ralts [rlit ("anything"), rlit ("it")]],
    rcat [rlit ("that"), wsp, rlit ("wasn"), ropt (rlit ("\x27")), rlit ("t"),
      wsp, rlit ("it")] ]

/-- Help-seeking patterns of `is_asking_for_help` (rag_core.py lines
316-324). -/
def help_patterns : List RE :=
  [ rcat [rlit ("how"), wsp, ralts [rlit ("to"), rcat [rlit ("do"), wsp, rlit ("i")]],
      wsp, ralts [rlit ("fix"), rlit ("solve"), rlit ("repair"), rlit ("troubleshoot")]],
    rcat [.wb, ralts [rlit ("fix"), rlit ("solve"), rlit ("repair"),
      rlit ("troubleshoot"), rlit ("diagnose")], .wb],
    rcat [.wb, ralts [rlit ("issue"), rlit ("problem"), rlit ("error"),
      rlit ("fault"), rlit ("failure")], wsp, rlit ("with"), .wb],
    rcat [rlit ("is"), wsp, ralts [rcat [rlit ("not"), wsp, rlit ("working")],
      rlit ("failing"), rlit ("broken"), rlit ("down"),
      rcat [rlit ("acting"), wsp, rlit ("up")]]],
    rcat [.wb, ralts [rlit ("help"), rlit ("assist"), rlit ("advice"),
      rlit ("guidance")], wsp, ropt (rcat [rlit ("me"), wsp]),
      ropt (ralts [rlit ("with"), rlit ("on")]), .wb],
    rcat [rlit ("what"), wsp, rlit ("to"), wsp, rlit ("do"), wsp,
      ralts [rlit ("about"), rlit ("if"), rlit ("when")]],
    rcat [rlit ("can"), wsp, rlit ("you"), wsp, rlit ("help")] ]

/-- Insufficiency patterns of `is_rag_answer_sufficient` (rag_core.py lines
685-705). -/
def insufficient_patterns : List RE :=
  [ rlit ("couldn\x27t find specific details"),
    rlit ("could not find information"),
    rlit ("do not have specific information"),
    rlit ("information is not available"),
    rcat [rlit ("based on the provided document"), ropt (rlit ("s")),
      ropt (.cls .dot), ropt (.cls .dot), rlit (" i can\x27t")],
    rlit ("unable to provide specific steps"),
    rlit ("no mention of"),
    rcat [rlit ("document"), ropt (rlit ("s")), rlit (" don\x27t cover")],
    rlit ("general information"),
    rlit ("i can only provide general advice"),
    rlit ("it might be"),
    rlit ("possible causes could include"),
    rlit ("recommend consulting the manual"),
    rlit ("refer to standard procedures"),
    rlit ("i cannot answer"),
    rlit ("don\x27t have enough information"),
    rcat [rlit ("therefore"), ropt (rlit (",")), rlit (" i don\x27t know")],
    rcat [rlit ("i am sorry"), ropt (rlit (",")), rlit (" but the provided document"),
      ropt (rlit ("s"))],
    rcat [rlit ("document"), ropt (rlit ("s")),
      rlit (" provided do not contain information")],
    rlit ("based on the information i have"),
    rlit ("i don\x27t have access to information about that"),
    rlit ("my knowledge base doesn\x27t include details on"),
    rlit ("unable to find relevant information in the context"),
    rlit ("the context provided does not answer"),
    rcat [rlit ("the retrieved document"), ropt (rlit ("s")), rlit (" seem unrelated")],
    rlit ("i lack the specific data") ]

/-! ### Intent classifiers (rag_core.py) -/

/-- Embedding of `is_problem_solved` (rag_core.py lines 327-359): normalises
the text, checks negation first (with the exact-"no"/"nope" short-circuit
and the solved-wording override), then the solved patterns. -/
def is_problem_solved (text : String) : Bool :=
  let text_lower := pyStrip (lowerData text)
  if searchAny negation_patterns text_lower then
    if text_lower = ("no").data ∨ text_lower = ("nope").data then false
    else if !(searchAny solved_patterns text_lower) then false
    else searchAny solved_patterns text_lower
  else searchAny solved_patterns text_lower

/-- Embedding of `is_problem_not_solved` (rag_core.py lines 361-378):
returns false whenever `is_problem_solved` holds of the normalised text,
otherwise searches the not-solved patterns. -/
def is_problem_not_solved (text : String) : Bool :=
  let text_lower := pyStrip (lowerData text)
  if is_problem_solved (String.mk text_lower) then false
  else searchAny not_solved_patterns text_lower

/-- Embedding of `is_asking_for_help` (rag_core.py lines 312-325): the text
is lower-cased (not stripped) and matched against the help patterns. -/
def is_asking_for_help (text : String) : Bool :=
  searchAny help_patterns (lowerData text)

/-- Embedding of `is_rag_answer_sufficient` (rag_core.py lines 667-714):
empty answers are insufficient; otherwise any insufficiency pattern found in
the lower-cased text forces false.  The 50-character length check of the
source only feeds logging and never changes the result, so it has no
counterpart here. -/
def is_rag_answer_sufficient (answer_text : String) : Bool :=
  if answer_text = "" then false
  else if searchAny insufficient_patterns (lowerData answer_text) then false
  else true

/-! ### Problem catalog and step lookup (rag_core.py) -/

/-- Configured maximum number of solution steps (config.py line 26). -/
def MAX_SOLUTION_STEPS : Nat := 3

/-- One entry of the problem dictionary built by `load_problem_data_dict`:
the possible cause plus the texts stored under the keys
`solution_step_1 .. solution_step_N` (position `i - 1` of `steps` holds
`solution_step_i`; missing positions read as the empty string, exactly like
`dict.get(step_key, '')`). -/
structure ProblemEntry where
  possible_cause : String := ""
  steps : List String := []
deriving Repr, DecidableEq

/-- Lookup of `solution_step_i` in an entry, defaulting to the empty
string. -/
def ProblemEntry.step (e : ProblemEntry) (i : Nat) : String :=
  e.steps.getD (i - 1) ""

/-- The problem dictionary: an insertion-ordered association list, standing
for the Python dict `problem_dict`. -/
def lookupEntry (pd : List (String × ProblemEntry)) (name : String) : Option ProblemEntry :=
  match pd.find? (fun kv => kv.1 == name) with
  | some kv => some kv.2
  | none => none

/-- The scanning loop of `get_next_solution_step` (rag_core.py lines
390-396), structured on the number `rem` of indices left to visit:
starting at index `i`, return the first index among the next `rem` whose
stripped step text is non-empty, with that text. -/
def scanFrom (e : ProblemEntry) (i : Nat) : Nat → Option (Nat × String)
  | 0 => none
  | rem + 1 =>
    if pyStripStr (e.step i) = "" then scanFrom e (i + 1) rem
    else some (i, pyStripStr (e.step i))

/-- The scanning loop of `get_next_solution_step`: the `while
next_step_index <= MAX_SOLUTION_STEPS` loop visits exactly the indices
`i .. MAX_SOLUTION_STEPS`. -/
def scanSteps (e : ProblemEntry) (i : Nat) : Option (Nat × String) :=
  scanFrom e i (MAX_SOLUTION_STEPS + 1 - i)

/-- Embedding of `get_next_solution_step` (rag_core.py lines 380-399). -/
def get_next_solution_step (pd : List (String × ProblemEntry)) (problem_name : String)
    (current_step_index : Nat) : Option Nat × Option String × Option String :=
  match lookupEntry pd problem_name with
  | none => (none, none, none)
  | some e =>
    match scanSteps e (current_step_index + 1) with
    | some (n, t) => (some n, some t, some e.possible_cause)
    | none => (none, none, some e.possible_cause)

/-! ### Problem detection (rag_core.py lines 272-309) -/

/-- Prefix test on character lists. -/
def isPre : List Char → List Char → Bool
  | [], _ => true
  | _ :: _, [] => false
  | a :: as, b :: bs => a == b && isPre as bs

/-- Substring containment (`pat in hay` on Python strings). -/
def hasSub (hay pat : List Char) : Bool :=
  isPre pat hay ||
    (match hay with
     | [] => false
     | _ :: rest => hasSub rest pat)

/-- Maximal runs of word characters in a character list (the matches of
`re.findall(r'\b\w{3,}\b', text)` before the length filter). -/
def wordRuns : List Char → List Char → List (List Char)
  | [], acc => if acc = [] then [] else [acc.reverse]
  | c :: rest, acc =>
    if isWordChar c then wordRuns rest (c :: acc)
    else if acc = [] then wordRuns rest []
    else acc.reverse :: wordRuns rest []

/-- The keyword set `set(re.findall(r'\b\w{3,}\b', text))`: maximal word
runs of length at least 3, deduplicated. -/
def wordTokens (l : List Char) : List (List Char) :=
  ((wordRuns l []).filter (fun w => 3 ≤ w.length)).dedup

/-- One step of the substring-containment stage of `detect_problem`
(rag_core.py lines 287-292): a catalog key contained in the text replaces
the best candidate when it is strictly longer. -/
def substep (text_lower : List Char) (acc : Option String × Nat)
    (kv : String × ProblemEntry) : Option String × Nat :=
  if hasSub text_lower (lowerData kv.1) then
    if kv.1.length > acc.2 then (some kv.1, kv.1.length) else acc
  else acc

/-- One step of the keyword-overlap stage of `detect_problem` (rag_core.py
lines 299-305): a key sharing at least two keywords with the text, more
than the best so far, becomes the best candidate. -/
def kwstep (text_keywords : List (List Char)) (acc : Option String × Nat)
    (kv : String × ProblemEntry) : Option String × Nat :=
  let problem_keywords := wordTokens (pyStrip (lowerData kv.1))
  let common := text_keywords.filter (fun w => problem_keywords.contains w)
  if 2 ≤ common.length ∧ common.length > acc.2 then (some kv.1, common.length)
  else acc

/-- Embedding of `detect_problem` (rag_core.py lines 272-309): exact
case-insensitive match first, then longest substring containment, then
keyword overlap (at least two common keywords, and at least two keywords in
the input). -/
def detect_problem (text : String) (problems : List (String × ProblemEntry)) :
    Option String :=
  if problems.isEmpty ∨ text = "" then none
  else
    match problems.find? (fun kv => lowerData kv.1 == pyStrip (lowerData text)) with
    | some kv => some kv.1
    | none =>
      match problems.foldl (substep (pyStrip (lowerData text))) (none, 0) with
      | (some bm, _) => some bm
      | (none, mo) =>
        if (wordTokens (pyStrip (lowerData text))).length < 2 then none
        else (problems.foldl (kwstep (wordTokens (pyStrip (lowerData text)))) (none, mo)).1

/-! ### Web-result formatting (rag_core.py lines 439-481) -/

/-- One Tavily search result, with the optional dictionary keys read by the
formatter (`res.get('title', 'N/A')`, `res.get('url', 'N/A')`,
`res.get('content', '')`). -/
structure WebResult where
  title : Option String := none
  url : Option String := none
  content : Option String := none
deriving Repr, DecidableEq

/-- Separator between formatted entries. -/
def web_sep : String := "\n\n---\n\n"

/-- The fixed head of the `i`-th formatted entry:
`f"Result {i+1}:\nSource: {url}\nTitle: {title}\nContent: "`. -/
def entry_head (i : Nat) (r : WebResult) : String :=
  "Result " ++ toString (i + 1) ++ ":\nSource: " ++ r.url.getD ("N/A") ++
    "\nTitle: " ++ r.title.getD ("N/A") ++ "\nContent: "

/-- The full formatted entry: head followed by the stripped content. -/
def entry_full (i : Nat) (r : WebResult) : String :=
  entry_head i r ++ pyStripStr (r.content.getD "")

/-- The title-only shortened form of an entry. -/
def short_entry (i : Nat) (r : WebResult) : String :=
  "Result " ++ toString (i + 1) ++ ":\nSource: " ++ r.url.getD ("N/A") ++
    "\nTitle: " ++ r.title.getD ("N/A")

/-- The truncated first entry produced when the very first entry alone
exceeds the budget (rag_core.py lines 461-466): the content is cut to the
remaining budget and marked with an ellipsis, or dropped entirely when
fewer than four characters remain. -/
def truncated_first (i : Nat) (r : WebResult) (max_chars : Nat) : String :=
  let avail := max_chars - (entry_head i r).length
  entry_head i r ++
    (if 3 < avail then String.mk ((pyStripStr (r.content.getD "")).data.take avail) ++ "..."
     else "")

/-- The accumulation loop of `format_web_results_for_llm`: `formatted` and
`total` are the list built so far and the running total (which counts each
separator), `i` the enumeration index. -/
def fmtLoop (max_chars : Nat) : List WebResult → Nat → List String → Nat → List String
  | [], _, formatted, _ => formatted
  | r :: rest, i, formatted, total =>
    let entry := entry_full i r
    if total = 0 then
      if entry.length ≤ max_chars then
        fmtLoop max_chars rest (i + 1) (formatted ++ [entry]) (total + entry.length)
      else formatted ++ [truncated_first i r max_chars]
    else
      if total + web_sep.length + entry.length ≤ max_chars then
        fmtLoop max_chars rest (i + 1) (formatted ++ [entry])
          (total + web_sep.length + entry.length)
      else
        let se := short_entry i r
        if total + web_sep.length + se.length ≤ max_chars then formatted ++ [se]
        else formatted

/-- Join with the separator (`separator.join(formatted)`). -/
def joinSep : List String → String
  | [] => ""
  | [a] => a
  | a :: rest => a ++ web_sep ++ joinSep rest

/-- Embedding of `format_web_results_for_llm` (rag_core.py lines 439-481). -/
def format_web_results_for_llm (search_results : List WebResult) (max_chars : Nat) : String :=
  if search_results.isEmpty then "No web search results found."
  else joinSep (fmtLoop max_chars search_results 0 [] 0)

/-! ### Data model of one chat turn (models.py) and the collaborator
environment -/

/-- One chat message (models.py `Message`). -/
structure Message where
  role : String
  content : String
deriving Repr, DecidableEq

/-- The guided-troubleshooting cursor (models.py `TroubleshootingState`). -/
structure TroubleshootingState where
  is_active : Bool := false
  current_problem : Option String := none
  current_step : Nat := 0
deriving Repr, DecidableEq

/-- The empty state `TroubleshootingState()`. -/
def emptyTS : TroubleshootingState := ⟨false, none, 0⟩

/-- The state invariant of the specification: the current problem is set
exactly when troubleshooting is active. -/
def TroubleshootingState.invariant (ts : TroubleshootingState) : Prop :=
  (ts.current_problem ≠ none) ↔ (ts.is_active = true)

/-- Request body of the `/chat` endpoint (models.py `ChatRequest`). -/
structure ChatRequest where
  prompt : String
  history : List Message := []
  troubleshooting_state : TroubleshootingState := emptyTS
  force_web_search : Bool := false
deriving Repr

/-- Shape of a Python exception as observed by the handlers of
`chat_endpoint`: whether it is a `ResourceExhausted`, whether its
`__cause__` is one, its type name and the message strings inspected for a
retry hint. -/
structure PyExc where
  isResourceExhausted : Bool := false
  causeResourceExhausted : Bool := false
  typeName : String := "Exception"
  msg : String := ""
  causeMsg : String := ""
deriving Repr

/-- The collaborator environment of one turn: the problem catalog, whether
the Tavily tool is configured, and the outcomes the retrieval chain and
the web-search-and-synthesis helper would produce if invoked (a value, or a
raised exception). -/
structure RagEnv where
  problem_dict : List (String × ProblemEntry) := []
  tavily_tool : Bool := false
  rag_result : Except PyExc String := .ok ""
  web_result : Except PyExc (String × String) := .ok ("", "")

/-- The observable outcome of one `/chat` turn: the `ChatResponse` fields
plus instrumentation flags recording which collaborators were invoked. -/
structure ChatOutcome where
  answer : String
  history : List Message := []
  troubleshooting_state : TroubleshootingState
  offer_web_search : Bool := false
  final_answer_source : String
  rag_called : Bool := false
  web_forced_called : Bool := false
  web_fallback_called : Bool := false
deriving Repr, DecidableEq

/-- Python truthiness of an optional string (`None` and `""` are falsy). -/
def optStrTruthy : Option String → Bool
  | none => false
  | some s => !(s == "")

/-- Python truthiness of an optional integer (`None` and `0` are falsy). -/
def optNatTruthy : Option Nat → Bool
  | none => false
  | some n => !(n == 0)

/-! ### The rate-limit retry hint (main.py lines 309-311 and 333-335) -/

/-- Attempted match of `retry_delay {\s*seconds: (\d+)\s*}` at the current
position, returning the captured digits. -/
def parseRetryAt (l : List Char) : Option String :=
  let pre := ("retry_delay \x7b").data
  if isPre pre l then
    let r1 := (l.drop pre.length).dropWhile isPyWs
    let pre2 := ("seconds: ").data
    if isPre pre2 r1 then
      let r2 := r1.drop pre2.length
      let digits := r2.takeWhile Char.isDigit
      if digits = [] then none
      else
        let r3 := (r2.drop digits.length).dropWhile isPyWs
        match r3 with
        | c :: _ => if c == '\x7d' then some (String.mk digits) else none
        | [] => none
    else none
  else none

/-- First match of the retry-delay pattern anywhere in the string. -/
def findRetrySeconds : List Char → Option String
  | [] => parseRetryAt []
  | c :: rest =>
    match parseRetryAt (c :: rest) with
    | some d => some d
    | none => findRetrySeconds rest

/-- The retry-hint sentence appended to the rate-limit message. -/
def retry_delay_msg (s : String) : String :=
  match findRetrySeconds s.data with
  | some d => " Please try again in about " ++ d ++ " seconds."
  | none => " Please try again later."

/-- The user-facing rate-limit answer. -/
def rate_limited_answer (excMsg : String) : String :=
  "The AI service is temporarily busy due to high demand." ++ retry_delay_msg excMsg

/-! ### The `/chat` decision engine (main.py lines 189-446) -/

/-- The disabled-web-search message of the forced branch (main.py line
211). -/
def disabled_msg : String :=
  "Web search was requested, but it is currently disabled (missing API key or initialization error)."

/-- Forced web search (main.py lines 208-217): short-circuit when the
Tavily tool is missing, otherwise call the web-search-and-synthesis helper;
in every case the troubleshooting state is reset.  An exception escaping
the helper call is caught by the top-level handler of the endpoint
(main.py lines 422-428), which resets the state and reports a server
error. -/
def forced_branch (env : RagEnv) (_req : ChatRequest) : ChatOutcome :=
  if !env.tavily_tool then
    { answer := disabled_msg, troubleshooting_state := emptyTS,
      final_answer_source := "Web Search Disabled" }
  else
    match env.web_result with
    | .ok (a, s) =>
      { answer := a, troubleshooting_state := emptyTS, final_answer_source := s,
        web_forced_called := true }
    | .error e =>
      { answer := "An unexpected server error occurred: " ++ e.typeName,
        troubleshooting_state := emptyTS, final_answer_source := "Server Error",
        web_forced_called := true }

/-- The automatic web-search fallback taken when the RAG answer is empty or
insufficient and the Tavily tool exists (main.py lines 360-407). -/
def fallback_branch (env : RagEnv) (req : ChatRequest) (rag_answer : String) : ChatOutcome :=
  match env.web_result with
  | .ok (wa, ws) =>
    if ws = "Web Search Synthesis (Ship Focused)" ∧ wa ≠ "" then
      { answer := wa, troubleshooting_state := req.troubleshooting_state,
        final_answer_source := ws, rag_called := true, web_fallback_called := true }
    else if ws = "Web Search No Results" then
      { answer := if rag_answer ≠ "" then rag_answer ++ "\n\n" ++ wa else wa,
        troubleshooting_state := req.troubleshooting_state,
        final_answer_source := ws, rag_called := true, web_fallback_called := true }
    else if ws = "Error" ∨ ws = "Error (Rate Limited)" then
      { answer := if rag_answer ≠ "" then rag_answer ++ "\n\n_(" ++ wa ++ ")_"
          else "I couldn\x27t find information internally. " ++ wa,
        troubleshooting_state := req.troubleshooting_state,
        final_answer_source := if rag_answer ≠ "" then "Internal Knowledge (Limited)" else "Error",
        rag_called := true, web_fallback_called := true }
    else
      { answer := if rag_answer ≠ "" then
          rag_answer ++ "\n\n_(Internal knowledge was limited. Web search fallback did not produce a usable result [State: " ++ ws ++ "])_"
          else "I couldn\x27t find information internally, and the web search fallback did not produce a usable result [State: \x7bweb_search_source\x7d].",
        troubleshooting_state := req.troubleshooting_state,
        final_answer_source := "Internal Knowledge (Limited)",
        rag_called := true, web_fallback_called := true }
  | .error e =>
    { answer := if rag_answer ≠ "" then
        rag_answer ++ "\n\n_(An error occurred while initiating the web search (" ++ e.typeName ++ ").)_"
        else "I couldn\x27t find information internally. An error occurred while initiating the web search (" ++ e.typeName ++ ").",
      troubleshooting_state := req.troubleshooting_state,
      final_answer_source := if rag_answer ≠ "" then "Internal Knowledge (Limited)" else "Error",
      rag_called := true, web_fallback_called := true }

/-- The RAG call with its layered exception handling and quality-based
fallback (main.py lines 294-412).  Any exception from the retrieval
collaborator — rate limit, rate limit via the cause chain, or other —
sets the blocking flag, so the fallback only runs after a successful call
whose stripped answer is empty or judged insufficient. -/
def rag_branch (env : RagEnv) (req : ChatRequest) (_contextual_prompt : String) : ChatOutcome :=
  match env.rag_result with
  | .error exc =>
    if exc.isResourceExhausted then
      { answer := rate_limited_answer exc.msg,
        troubleshooting_state := req.troubleshooting_state,
        final_answer_source := "Error (Rate Limited)", rag_called := true }
    else if exc.causeResourceExhausted then
      { answer := rate_limited_answer exc.causeMsg,
        troubleshooting_state := req.troubleshooting_state,
        final_answer_source := "Error (Rate Limited)", rag_called := true }
    else
      { answer := "Sorry, an error occurred while retrieving information from the knowledge base (" ++ exc.typeName ++ ").",
        troubleshooting_state := req.troubleshooting_state,
        final_answer_source := "Error (RAG Failure)", rag_called := true }
  | .ok a =>
    if pyStripStr a ≠ "" ∧ is_rag_answer_sufficient (pyStripStr a) = true then
      { answer := pyStripStr a, troubleshooting_state := req.troubleshooting_state,
        final_answer_source := "Internal Knowledge (RAG)", rag_called := true }
    else if env.tavily_tool then fallback_branch env req (pyStripStr a)
    else
      { answer := if pyStripStr a ≠ "" then
          pyStripStr a ++ "\n\n_(Internal knowledge was limited, and web search is currently unavailable.)_"
          else "I couldn\x27t find specific information in the internal guide, and web search is currently unavailable.",
        troubleshooting_state := req.troubleshooting_state,
        final_answer_source := "Internal Knowledge (Limited)", rag_called := true }

/-- End-of-guide outcome of the next-step strategy (main.py lines
262-269). -/
def end_of_steps_outcome (env : RagEnv) (p : String) : ChatOutcome :=
  let base := "We\x27ve tried all the documented steps for **\x27" ++ p ++ "\x27**.\n\nI couldn\x27t resolve it with the internal guide."
  if env.tavily_tool then
    { answer := base ++ "\n\nWould you like me to search the web for additional insights?",
      troubleshooting_state := emptyTS, offer_web_search := true,
      final_answer_source := "Troubleshooting End" }
  else
    { answer := base, troubleshooting_state := emptyTS,
      final_answer_source := "Troubleshooting End" }

/-- The strategies available while troubleshooting is active (main.py lines
226-241 and 250-269): solved, next step, or RAG with a context-annotated
prompt. -/
def active_branch (env : RagEnv) (req : ChatRequest) (p : String) : ChatOutcome :=
  if is_problem_solved req.prompt then
    { answer := "Excellent! Glad to hear the issue with **\x27" ++ p ++ "\x27** is resolved. How else can I help?",
      troubleshooting_state := emptyTS,
      final_answer_source := "Troubleshooting Solved" }
  else if is_problem_not_solved req.prompt then
    if optNatTruthy (get_next_solution_step env.problem_dict p req.troubleshooting_state.current_step).1 ∧
        optStrTruthy (get_next_solution_step env.problem_dict p req.troubleshooting_state.current_step).2.1 then
      { answer := "Okay, let\x27s try the next step for **\x27" ++ p ++ "\x27**:\n\n**Step " ++ toString ((get_next_solution_step env.problem_dict p req.troubleshooting_state.current_step).1.getD 0) ++ ": " ++ (get_next_solution_step env.problem_dict p req.troubleshooting_state.current_step).2.1.getD "" ++ "**\n\nPlease try this and let me know if it solved the problem.",
        troubleshooting_state :=
          { req.troubleshooting_state with
            current_step := (get_next_solution_step env.problem_dict p req.troubleshooting_state.current_step).1.getD 0 },
        final_answer_source := "Troubleshooting Step" }
    else end_of_steps_outcome env p
  else
    rag_branch env req
      ("Context: Currently troubleshooting ship problem \x27" ++ p ++
        "\x27 (last suggested step was " ++ toString req.troubleshooting_state.current_step ++ "). User asks: " ++ req.prompt)

/-- The possible-cause note of the start answer (main.py line 277):
`f"(Possible Cause: *{cause}*)" if cause and cause != 'N/A' else ""`. -/
def cause_note : Option String → String
  | some c => if c ≠ "" ∧ c ≠ "N/A" then "(Possible Cause: *" ++ c ++ "*)" else ""
  | none => ""

/-- The start-troubleshooting strategy (main.py lines 270-291): look the
detected problem up, fetch its first step, and activate the state at that
step; degrade to the no-steps or internal-error outcomes otherwise. -/
def start_branch (env : RagEnv) (_req : ChatRequest) (detected_problem : String) : ChatOutcome :=
  match lookupEntry env.problem_dict detected_problem with
  | some _ =>
    if optNatTruthy (get_next_solution_step env.problem_dict detected_problem 0).1 ∧
        optStrTruthy (get_next_solution_step env.problem_dict detected_problem 0).2.1 then
      { answer := "Okay, let\x27s start troubleshooting for **\x27" ++ detected_problem ++ "\x27**. " ++ cause_note (get_next_solution_step env.problem_dict detected_problem 0).2.2 ++ "\n\n**Step " ++ toString ((get_next_solution_step env.problem_dict detected_problem 0).1.getD 0) ++ ": " ++ (get_next_solution_step env.problem_dict detected_problem 0).2.1.getD "" ++ "**\n\nPlease perform this step and tell me if it solved the problem.",
        troubleshooting_state :=
          ⟨true, some detected_problem, (get_next_solution_step env.problem_dict detected_problem 0).1.getD 0⟩,
        final_answer_source := "Troubleshooting Start" }
    else
      let base := "I found **\x27" ++ detected_problem ++ "\x27** in the guide, but there are no specific solution steps listed."
      if env.tavily_tool then
        { answer := base ++ "\n\nWould you like me to search the web?",
          troubleshooting_state := emptyTS, offer_web_search := true,
          final_answer_source := "Troubleshooting No Steps" }
      else
        { answer := base, troubleshooting_state := emptyTS,
          final_answer_source := "Troubleshooting No Steps" }
  | none =>
    { answer := "I recognized the problem, but encountered an internal error retrieving the steps.",
      troubleshooting_state := emptyTS, final_answer_source := "Error" }

/-- Strategy determination and dispatch for a non-forced turn (main.py
lines 220-246 together with the strategy handlers). -/
def regular_branch (env : RagEnv) (req : ChatRequest) : ChatOutcome :=
    if req.troubleshooting_state.is_active ∧ optStrTruthy req.troubleshooting_state.current_problem = true then
    active_branch env req (req.troubleshooting_state.current_problem.getD "")
  else if (!req.troubleshooting_state.is_active) ∧ env.problem_dict ≠ [] then
    match detect_problem req.prompt env.problem_dict with
    | some dp =>
      if is_asking_for_help req.prompt then start_branch env req dp
      else rag_branch env req req.prompt
    | none => rag_branch env req req.prompt
  else rag_branch env req req.prompt

/-- The strategy string computed by the determination section of the
endpoint (main.py lines 220-246), stored in `response_strategy`. -/
def response_strategy (env : RagEnv) (req : ChatRequest) : String :=
    if req.troubleshooting_state.is_active ∧ optStrTruthy req.troubleshooting_state.current_problem = true then
    if is_problem_solved req.prompt then "solved"
    else if is_problem_not_solved req.prompt then "next_step"
    else "rag_troubleshooting_context"
  else if (!req.troubleshooting_state.is_active) ∧ env.problem_dict ≠ [] then
    match detect_problem req.prompt env.problem_dict with
    | some _ =>
      if is_asking_for_help req.prompt then "start_troubleshooting" else "rag"
    | none => "rag"
  else "rag"

/-- The `needs_rag_call` flag of the determination section: every strategy
except solved, next-step and start-troubleshooting performs the retrieval
call. -/
def needs_rag_call (env : RagEnv) (req : ChatRequest) : Bool :=
    if req.troubleshooting_state.is_active ∧ optStrTruthy req.troubleshooting_state.current_problem = true then
    !(is_problem_solved req.prompt) && !(is_problem_not_solved req.prompt)
  else if (!req.troubleshooting_state.is_active) ∧ env.problem_dict ≠ [] then
    match detect_problem req.prompt env.problem_dict with
    | some _ => !(is_asking_for_help req.prompt)
    | none => true
  else true

/-- Embedding of `chat_endpoint` (main.py lines 189-446): dispatch on the
forced flag, then the final assembly guaranteeing a non-empty answer and
the appended user and assistant history messages. -/
def chat_endpoint (env : RagEnv) (req : ChatRequest) : ChatOutcome :=
  let core := if req.force_web_search then forced_branch env req else regular_branch env req
  let answer := if core.answer = "" then "Sorry, I encountered an issue and couldn\x27t generate a response."
    else core.answer
  let source := if core.answer = "" then "Error" else core.final_answer_source
  { core with
    answer := answer
    final_answer_source := source
    history := req.history ++ [⟨"user", req.prompt⟩, ⟨"assistant", answer⟩] }

/-! ### Concrete instances used by the witnesses -/

/-- Example catalog: the specification scenario of a pump-overheating
problem with two populated steps. -/
def pdEx : List (String × ProblemEntry) :=
  [("pump overheating",
    { possible_cause := "Low coolant", steps := ["Check coolant level", "Inspect impeller", ""] })]

/-- Example catalog whose first step is empty and second populated. -/
def pdGap : List (String × ProblemEntry) :=
  [("pump overheating",
    { possible_cause := "Low coolant", steps := ["", "Inspect impeller", ""] })]

/-- The entry of `pdGap`. -/
def entGap : ProblemEntry :=
  { possible_cause := "Low coolant", steps := ["", "Inspect impeller", ""] }

/-- Environment for the start-troubleshooting scenario. -/
def envStart : RagEnv := { problem_dict := pdEx }

/-- Request of the start-troubleshooting scenario. -/
def reqStart : ChatRequest := { prompt := "how do I fix pump overheating" }

/-- A quota-exhaustion exception. -/
def excRL : PyExc := { isResourceExhausted := true, typeName := "ResourceExhausted", msg := "quota" }

/-- Environment whose retrieval call raises a quota-exhaustion error while
web search is configured. -/
def envRL : RagEnv :=
  { problem_dict := [], tavily_tool := true, rag_result := .error excRL,
    web_result := .ok ("w", "Web Search Synthesis (Ship Focused)") }

/-- A plain request outside troubleshooting. -/
def reqPlain : ChatRequest := { prompt := "hello there" }

/-- A forced-web-search request arriving with an active state. -/
def reqForced : ChatRequest :=
  { prompt := "anything", force_web_search := true,
    troubleshooting_state := ⟨true, some "pump overheating", 2⟩ }

/-- Environment without the web-search capability. -/
def envNoTavily : RagEnv := { problem_dict := pdEx, tavily_tool := false }

/-- A small web-search result. -/
def resEx : WebResult := { title := some "T", url := some "U", content := some "C" }

/-! ### Normalisation lemmas: lower-casing and stripping are idempotent -/

/-- Valid-character bound for the code points produced by `asciiLower`. -/
lemma isValidChar_of_lt (n : Nat) (h : n < 55296) : n.isValidChar := Or.inl h

/-- Computation of `toNat` after `Char.ofNat` on a valid code point. -/
lemma toNat_ofNat_valid (n : Nat) (h : n.isValidChar) : (Char.ofNat n).toNat = n := by
  unfold Char.ofNat
  rw [dif_pos h]
  rfl

/-- Code point of the lower-cased image of an upper-case letter. -/
lemma asciiLower_toNat_upper (c : Char) (h : 65 ≤ c.toNat ∧ c.toNat ≤ 90) :
    (asciiLower c).toNat = c.toNat + 32 := by
  rw [asciiLower, if_pos h]
  exact toNat_ofNat_valid _ (isValidChar_of_lt _ (by omega))

/-- Lower-casing never changes whitespace-ness. -/
lemma isPyWs_asciiLower (c : Char) : isPyWs (asciiLower c) = isPyWs c := by
  by_cases h : 65 ≤ c.toNat ∧ c.toNat ≤ 90
  · have hv : (asciiLower c).toNat = c.toNat + 32 := asciiLower_toNat_upper c h
    have l1 : isPyWs (asciiLower c) = false := by
      simp only [isPyWs, hv, Bool.or_eq_false_iff, beq_eq_false_iff_ne, ne_eq]
      omega
    have l2 : isPyWs c = false := by
      simp only [isPyWs, Bool.or_eq_false_iff, beq_eq_false_iff_ne, ne_eq]
      omega
    rw [l1, l2]
  · rw [asciiLower, if_neg h]

/-- Lower-casing is idempotent. -/
lemma asciiLower_idem (c : Char) : asciiLower (asciiLower c) = asciiLower c := by
  by_cases h : 65 ≤ c.toNat ∧ c.toNat ≤ 90
  · have hv : (asciiLower c).toNat = c.toNat + 32 := asciiLower_toNat_upper c h
    rw [asciiLower, if_neg (by rw [hv]; omega)]
  · have hc : asciiLower c = c := by rw [asciiLower, if_neg h]
    rw [hc, hc]

/-- Lower-casing a list twice is the same as once. -/
lemma map_asciiLower_idem (l : List Char) :
    (l.map asciiLower).map asciiLower = l.map asciiLower := by
  rw [List.map_map]
  exact List.map_congr_left (fun a _ => asciiLower_idem a)

/-- The whitespace predicate is invariant under pre-composition with
lower-casing. -/
lemma isPyWs_comp_asciiLower : (isPyWs ∘ asciiLower) = isPyWs :=
  funext isPyWs_asciiLower

/-- Stripping commutes with lower-casing. -/
lemma pyStrip_map_asciiLower (l : List Char) :
    pyStrip (l.map asciiLower) = (pyStrip l).map asciiLower := by
  unfold pyStrip
  rw [List.dropWhile_map, isPyWs_comp_asciiLower]
  unfold List.rdropWhile
  rw [← List.map_reverse, List.dropWhile_map, isPyWs_comp_asciiLower, ← List.map_reverse]

/-- Head of a `dropWhile` result fails the predicate. -/
lemma dropWhile_head_not (p : Char → Bool) (l : List Char) (x : Char) (xs : List Char)
    (h : List.dropWhile p l = x :: xs) : p x = false := by
  induction l with
  | nil => simp at h
  | cons a as ih =>
    rw [List.dropWhile_cons] at h
    by_cases hpa : p a = true
    · exact ih (by simpa [hpa] using h)
    · have hne : ¬(p a = true) := hpa
      simp only [if_neg hne] at h
      cases h
      exact Bool.not_eq_true _ |>.mp hpa

/-- Stripping is idempotent. -/
lemma pyStrip_idem (l : List Char) : pyStrip (pyStrip l) = pyStrip l := by
  unfold pyStrip
  have key : List.dropWhile isPyWs (List.rdropWhile isPyWs (List.dropWhile isPyWs l)) =
      List.rdropWhile isPyWs (List.dropWhile isPyWs l) := by
    cases hr : List.rdropWhile isPyWs (List.dropWhile isPyWs l) with
    | nil => simp
    | cons x xs =>
      have hx : isPyWs x = false := by
        obtain ⟨t, ht⟩ := List.rdropWhile_prefix isPyWs (List.dropWhile isPyWs l)
        rw [hr] at ht
        exact dropWhile_head_not isPyWs l x (xs ++ t) ht.symm
      rw [List.dropWhile_cons, hx]
      simp
  rw [key, List.rdropWhile_idempotent]

/-- Normalising (`lower` then `strip`) an already-normalised string changes
nothing. -/
lemma norm_idem (s : String) :
    pyStrip (lowerData (String.mk (pyStrip (lowerData s)))) = pyStrip (lowerData s) := by
  show pyStrip ((pyStrip (s.data.map asciiLower)).map asciiLower) = _
  rw [← pyStrip_map_asciiLower, map_asciiLower_idem, pyStrip_idem]
  rfl

/-- The solved classifier is invariant under pre-normalising its input,
because the classifier normalises internally and normalisation is
idempotent; this is exactly the re-entry `is_problem_solved(text_lower)`
performed by `is_problem_not_solved`. -/
lemma is_problem_solved_norm (text : String) :
    is_problem_solved (String.mk (pyStrip (lowerData text))) = is_problem_solved text := by
  simp only [is_problem_solved, norm_idem]


/-! ### Characterisation of the step-scanning loop -/

/-- Characterisation of `scanFrom e i rem = none` when `rem` covers exactly
the indices up to the configured maximum: no index in
`[i, MAX_SOLUTION_STEPS]` has non-empty stripped text. -/
lemma scanFrom_none_aux : ∀ (rem i : Nat), rem = MAX_SOLUTION_STEPS + 1 - i →
    ∀ e : ProblemEntry,
    (scanFrom e i rem = none ↔
      ∀ j, i ≤ j → j ≤ MAX_SOLUTION_STEPS → pyStripStr (e.step j) = "") := by
  intro rem
  induction rem with
  | zero =>
    intro i hi e
    simp only [scanFrom]
    constructor
    · intro _ j hj1 hj2
      exact absurd (le_trans hj1 hj2) (by omega)
    · intro _
      trivial
  | succ rem ih =>
    intro i hi e
    have hle : i ≤ MAX_SOLUTION_STEPS := by
      simp only [MAX_SOLUTION_STEPS] at hi ⊢
      omega
    simp only [scanFrom]
    by_cases ht : pyStripStr (e.step i) = ""
    · rw [if_pos ht]
      rw [ih (i + 1) (by omega) e]
      constructor
      · intro h j hj1 hj2
        rcases Nat.eq_or_lt_of_le hj1 with heq | hlt
        · rw [← heq]; exact ht
        · exact h j hlt hj2
      · intro h j hj1 hj2
        exact h j (by omega) hj2
    · rw [if_neg ht]
      constructor
      · intro h
        exact absurd h (by simp)
      · intro h
        exact absurd (h i le_rfl hle) ht

/-- Characterisation of `scanFrom e i rem = some (n, t)` when `rem` covers
exactly the indices up to the configured maximum: `n` is the least index at
or above `i` (within the bound) whose stripped text is non-empty, and `t`
is that text. -/
lemma scanFrom_some_aux : ∀ (rem i : Nat), rem = MAX_SOLUTION_STEPS + 1 - i →
    ∀ (e : ProblemEntry) (n : Nat) (t : String), scanFrom e i rem = some (n, t) →
    i ≤ n ∧ n ≤ MAX_SOLUTION_STEPS ∧ t = pyStripStr (e.step n) ∧ t ≠ "" ∧
      ∀ j, i ≤ j → j < n → pyStripStr (e.step j) = "" := by
  intro rem
  induction rem with
  | zero =>
    intro i hi e n t h
    exact absurd h (by simp [scanFrom])
  | succ rem ih =>
    intro i hi e n t h
    have hle : i ≤ MAX_SOLUTION_STEPS := by
      simp only [MAX_SOLUTION_STEPS] at hi ⊢
      omega
    simp only [scanFrom] at h
    by_cases ht : pyStripStr (e.step i) = ""
    · rw [if_pos ht] at h
      obtain ⟨h1, h2, h3, h4, h5⟩ := ih (i + 1) (by omega) e n t h
      refine ⟨by omega, h2, h3, h4, ?_⟩
      intro j hj1 hj2
      rcases Nat.eq_or_lt_of_le hj1 with heq | hlt
      · rw [← heq]; exact ht
      · exact h5 j hlt hj2
    · rw [if_neg ht] at h
      have hn : i = n := by
        have := congrArg (fun q => Option.map Prod.fst q) h
        simpa using this
      have htt : t = pyStripStr (e.step i) := by
        have := congrArg (fun q => Option.map Prod.snd q) h
        simpa using this.symm
      subst hn
      refine ⟨le_rfl, hle, htt, by rw [htt]; exact ht, ?_⟩
      intro j hj1 hj2
      exact absurd (lt_of_le_of_lt hj1 hj2) (lt_irrefl _)

/-- The bounded characterisations lifted to `scanSteps`. -/
lemma scanSteps_none_iff (e : ProblemEntry) (i : Nat) :
    scanSteps e i = none ↔
      ∀ j, i ≤ j → j ≤ MAX_SOLUTION_STEPS → pyStripStr (e.step j) = "" :=
  scanFrom_none_aux (MAX_SOLUTION_STEPS + 1 - i) i rfl e

/-- The success characterisation lifted to `scanSteps`. -/
lemma scanSteps_some_spec (e : ProblemEntry) (i n : Nat) (t : String)
    (h : scanSteps e i = some (n, t)) :
    i ≤ n ∧ n ≤ MAX_SOLUTION_STEPS ∧ t = pyStripStr (e.step n) ∧ t ≠ "" ∧
      ∀ j, i ≤ j → j < n → pyStripStr (e.step j) = "" :=
  scanFrom_some_aux (MAX_SOLUTION_STEPS + 1 - i) i rfl e n t h

/-- Unfolding of `get_next_solution_step` once the catalog entry is
known. -/
lemma get_next_eq (pd : List (String × ProblemEntry)) (name : String) (cur : Nat)
    (e : ProblemEntry) (h : lookupEntry pd name = some e) :
    get_next_solution_step pd name cur =
      (match scanSteps e (cur + 1) with
       | some (n, t) => (some n, some t, some e.possible_cause)
       | none => (none, none, some e.possible_cause)) := by
  unfold get_next_solution_step
  rw [h]

/-- Characterisation of a successful `get_next_solution_step`: the returned
index is the least index strictly above the current one (within the
configured bound) with non-empty stripped text, and the cause is the
entry's possible cause. -/
lemma get_next_some_spec (pd : List (String × ProblemEntry)) (name : String)
    (e : ProblemEntry) (cur : Nat) (h : lookupEntry pd name = some e)
    (n : Nat) (t : String) (c : Option String)
    (hg : get_next_solution_step pd name cur = (some n, some t, c)) :
    c = some e.possible_cause ∧ cur < n ∧ n ≤ MAX_SOLUTION_STEPS ∧
      t = pyStripStr (e.step n) ∧ t ≠ "" ∧
      ∀ j, cur < j → j < n → pyStripStr (e.step j) = "" := by
  rw [get_next_eq pd name cur e h] at hg
  cases hs : scanSteps e (cur + 1) with
  | none =>
    rw [hs] at hg
    exact absurd hg (by simp)
  | some p =>
    obtain ⟨n', t'⟩ := p
    rw [hs] at hg
    have hn : n' = n := by
      have := congrArg (fun q => q.1) hg
      simpa using this
    have ht : t' = t := by
      have := congrArg (fun q => q.2.1) hg
      simpa using this
    have hc : c = some e.possible_cause := by
      have := congrArg (fun q => q.2.2) hg
      simpa using this.symm
    subst hn
    subst ht
    obtain ⟨h1, h2, h3, h4, h5⟩ :=
      scanSteps_some_spec e (cur + 1) n' t' hs
    exact ⟨hc, by omega, h2, h3, h4, fun j hj1 hj2 => h5 j (by omega) hj2⟩

/-- Characterisation of the terminal `get_next_solution_step` outcome. -/
lemma get_next_none_spec (pd : List (String × ProblemEntry)) (name : String)
    (e : ProblemEntry) (cur : Nat) (h : lookupEntry pd name = some e) :
    get_next_solution_step pd name cur = (none, none, some e.possible_cause) ↔
      ∀ j, cur < j → j ≤ MAX_SOLUTION_STEPS → pyStripStr (e.step j) = "" := by
  rw [get_next_eq pd name cur e h]
  cases hs : scanSteps e (cur + 1) with
  | none =>
    have hall := (scanSteps_none_iff e (cur + 1)).mp hs
    constructor
    · intro _ j hj1 hj2
      exact hall j (by omega) hj2
    · intro _
      rfl
  | some p =>
    obtain ⟨n, t⟩ := p
    obtain ⟨h1, h2, h3, h4, _⟩ :=
      scanSteps_some_spec e (cur + 1) n t hs
    constructor
    · intro hcon
      exact absurd hcon (by simp)
    · intro hall
      exact absurd (hall n (by omega) h2) (by rw [← h3]; exact h4)

/-! ### Auxiliary facts about strings and the catalog search -/

/-- A string with a non-empty left part is non-empty. -/
lemma append_ne_empty_left (s t : String) (h : s ≠ "") : s ++ t ≠ "" := by
  intro hc
  apply h
  have hd : s.data ++ t.data = ([] : List Char) := congrArg String.data hc
  have hs : s.data = [] := (List.append_eq_nil.mp hd).1
  calc s = String.mk s.data := rfl
    _ = String.mk [] := by rw [hs]

/-- Generic membership fact for the best-candidate folds of
`detect_problem`: if the fold ends on `some k`, then `k` was either already
in the accumulator or is the key of a traversed pair. -/
lemma foldl_best_fst_mem (f : (Option String × Nat) → (String × ProblemEntry) → (Option String × Nat))
    (hf : ∀ acc kv, (f acc kv).1 = acc.1 ∨ (f acc kv).1 = some kv.1) :
    ∀ (l : List (String × ProblemEntry)) (acc : Option String × Nat) (k : String),
      (l.foldl f acc).1 = some k → acc.1 = some k ∨ ∃ kv ∈ l, kv.1 = k := by
  intro l
  induction l with
  | nil =>
    intro acc k h
    exact Or.inl h
  | cons a as ih =>
    intro acc k h
    rcases ih (f acc a) k h with h1 | h2
    · rcases hf acc a with h3 | h3
      · exact Or.inl (h3 ▸ h1)
      · refine Or.inr ⟨a, List.mem_cons_self a as, ?_⟩
        exact Option.some.inj (h3 ▸ h1)
    · obtain ⟨kv, hm, he⟩ := h2
      exact Or.inr ⟨kv, List.mem_cons_of_mem a hm, he⟩

/-- The substring stage only ever installs a traversed key. -/
lemma substep_fst (tl : List Char) (acc : Option String × Nat) (kv : String × ProblemEntry) :
    (substep tl acc kv).1 = acc.1 ∨ (substep tl acc kv).1 = some kv.1 := by
  unfold substep
  split
  · split
    · exact Or.inr rfl
    · exact Or.inl rfl
  · exact Or.inl rfl

/-- The keyword stage only ever installs a traversed key. -/
lemma kwstep_fst (tks : List (List Char)) (acc : Option String × Nat) (kv : String × ProblemEntry) :
    (kwstep tks acc kv).1 = acc.1 ∨ (kwstep tks acc kv).1 = some kv.1 := by
  simp only [kwstep]
  split
  · exact Or.inr rfl
  · exact Or.inl rfl

/-- A detected problem name is always a key of the catalog it was detected
against, at whichever of the three stages it was found. -/
lemma detect_problem_mem (text : String) (problems : List (String × ProblemEntry)) (k : String)
    (h : detect_problem text problems = some k) : k ∈ problems.map Prod.fst := by
  unfold detect_problem at h
  split at h
  · exact absurd h (by simp)
  · split at h
    next kv hf =>
      have hm : kv ∈ problems := List.mem_of_find?_eq_some hf
      have hk : kv.1 = k := Option.some.inj h
      exact hk ▸ List.mem_map_of_mem Prod.fst hm
    next hf =>
      split at h
      next bm mo hsub =>
        have hk : bm = k := Option.some.inj h
        have hfold : (problems.foldl (substep (pyStrip (lowerData text))) (none, 0)).1 = some bm := by
          rw [hsub]
        have := foldl_best_fst_mem (substep (pyStrip (lowerData text)))
          (substep_fst (pyStrip (lowerData text))) problems (none, 0) bm hfold
        rcases this with hc | ⟨kv, hm, he⟩
        · exact absurd hc (by simp)
        · exact hk ▸ he ▸ List.mem_map_of_mem Prod.fst hm
      next mo hsub =>
        split at h
        · exact absurd h (by simp)
        · have := foldl_best_fst_mem (kwstep (wordTokens (pyStrip (lowerData text))))
            (kwstep_fst (wordTokens (pyStrip (lowerData text)))) problems (none, mo) k h
          rcases this with hc | ⟨kv, hm, he⟩
          · exact absurd hc (by simp)
          · exact he ▸ List.mem_map_of_mem Prod.fst hm

/-! ### Field lemmas for the engine branches -/

/-- The empty state satisfies the invariant. -/
lemma emptyTS_inv : emptyTS.invariant := by
  simp [TroubleshootingState.invariant, emptyTS]

/-- The forced branch always resets the troubleshooting state. -/
lemma forced_branch_ts (env : RagEnv) (req : ChatRequest) :
    (forced_branch env req).troubleshooting_state = emptyTS := by
  unfold forced_branch
  split
  · rfl
  · split <;> rfl

/-- The forced branch never runs the retrieval call or the fallback. -/
lemma forced_branch_flags (env : RagEnv) (req : ChatRequest) :
    (forced_branch env req).rag_called = false ∧
      (forced_branch env req).web_fallback_called = false := by
  unfold forced_branch
  split
  · exact ⟨rfl, rfl⟩
  · split <;> exact ⟨rfl, rfl⟩

/-- The fallback keeps the request's troubleshooting state and records both
the retrieval call and the fallback attempt. -/
lemma fallback_branch_fields (env : RagEnv) (req : ChatRequest) (ra : String) :
    (fallback_branch env req ra).troubleshooting_state = req.troubleshooting_state ∧
      (fallback_branch env req ra).rag_called = true ∧
      (fallback_branch env req ra).web_fallback_called = true := by
  unfold fallback_branch
  split
  · split
    · exact ⟨rfl, rfl, rfl⟩
    · split
      · exact ⟨rfl, rfl, rfl⟩
      · split <;> exact ⟨rfl, rfl, rfl⟩
  · exact ⟨rfl, rfl, rfl⟩

/-- The fallback never reports the start-troubleshooting source label. -/
lemma fallback_branch_source_ne_start (env : RagEnv) (req : ChatRequest) (ra : String) :
    (fallback_branch env req ra).final_answer_source ≠ "Troubleshooting Start" := by
  unfold fallback_branch
  split
  next wa ws heq =>
    split
    next h =>
      intro hc
      have hcw : ws = "Troubleshooting Start" := hc
      rw [h.1] at hcw
      exact absurd hcw (by decide)
    next h1 =>
      split
      next h =>
        intro hc
        have hcw : ws = "Troubleshooting Start" := hc
        rw [h] at hcw
        exact absurd hcw (by decide)
      next h2 =>
        split
        next h =>
          intro hc
          have hc2 : (if ra ≠ "" then ("Internal Knowledge (Limited)" : String) else "Error") = "Troubleshooting Start" := hc
          split at hc2 <;> exact absurd hc2 (by decide)
        next h =>
          intro hc
          have hc2 : ("Internal Knowledge (Limited)" : String) = "Troubleshooting Start" := hc
          exact absurd hc2 (by decide)
  next e heq =>
    intro hc
    have hc2 : (if ra ≠ "" then ("Internal Knowledge (Limited)" : String) else "Error") = "Troubleshooting Start" := hc
    split at hc2 <;> exact absurd hc2 (by decide)

/-- The RAG branch never touches the troubleshooting state. -/
lemma rag_branch_ts (env : RagEnv) (req : ChatRequest) (cp : String) :
    (rag_branch env req cp).troubleshooting_state = req.troubleshooting_state := by
  unfold rag_branch
  split
  · split
    · rfl
    · split <;> rfl
  · split
    · rfl
    · split
      · exact (fallback_branch_fields env req _).1
      · rfl

/-- The RAG branch always records the retrieval attempt. -/
lemma rag_branch_rag_called (env : RagEnv) (req : ChatRequest) (cp : String) :
    (rag_branch env req cp).rag_called = true := by
  unfold rag_branch
  split
  · split
    · rfl
    · split <;> rfl
  · split
    · rfl
    · split
      · exact (fallback_branch_fields env req _).2.1
      · rfl

/-- The RAG branch never reports the start-troubleshooting source label. -/
lemma rag_branch_source_ne_start (env : RagEnv) (req : ChatRequest) (cp : String) :
    (rag_branch env req cp).final_answer_source ≠ "Troubleshooting Start" := by
  unfold rag_branch
  split
  · split
    · intro hc
      have hc2 : ("Error (Rate Limited)" : String) = "Troubleshooting Start" := hc
      exact absurd hc2 (by decide)
    · split
      · intro hc
        have hc2 : ("Error (Rate Limited)" : String) = "Troubleshooting Start" := hc
        exact absurd hc2 (by decide)
      · intro hc
        have hc2 : ("Error (RAG Failure)" : String) = "Troubleshooting Start" := hc
        exact absurd hc2 (by decide)
  · split
    · intro hc
      have hc2 : ("Internal Knowledge (RAG)" : String) = "Troubleshooting Start" := hc
      exact absurd hc2 (by decide)
    · split
      · exact fallback_branch_source_ne_start env req _
      · intro hc
        have hc2 : ("Internal Knowledge (Limited)" : String) = "Troubleshooting Start" := hc
        exact absurd hc2 (by decide)

/-- Classification of a raised retrieval exception, and the skipped
fallback: a `ResourceExhausted` (directly or through the cause chain) is
labelled as rate-limited, anything else as a RAG failure — and the web
fallback is never attempted. -/
lemma rag_branch_error_spec (env : RagEnv) (req : ChatRequest) (cp : String)
    (exc : PyExc) (h : env.rag_result = .error exc) :
    (rag_branch env req cp).final_answer_source =
      (if exc.isResourceExhausted || exc.causeResourceExhausted then "Error (Rate Limited)"
       else "Error (RAG Failure)") ∧
    (rag_branch env req cp).web_fallback_called = false := by
  unfold rag_branch
  rw [h]
  dsimp only
  by_cases h1 : exc.isResourceExhausted = true
  · rw [if_pos h1]
    constructor
    · show ("Error (Rate Limited)" : String) = _
      rw [h1]
      rfl
    · rfl
  · rw [if_neg h1]
    have h1f : exc.isResourceExhausted = false := Bool.not_eq_true _ |>.mp h1
    by_cases h2 : exc.causeResourceExhausted = true
    · rw [if_pos h2]
      constructor
      · show ("Error (Rate Limited)" : String) = _
        rw [h1f, h2]
        rfl
      · rfl
    · have h2f : exc.causeResourceExhausted = false := Bool.not_eq_true _ |>.mp h2
      rw [if_neg h2]
      constructor
      · show ("Error (RAG Failure)" : String) = _
        rw [h1f, h2f]
        rfl
      · rfl

/-- The web fallback is attempted only after a successful retrieval call
whose stripped answer is empty or judged insufficient (and with the web
tool configured). -/
lemma rag_branch_fallback_spec (env : RagEnv) (req : ChatRequest) (cp : String)
    (h : (rag_branch env req cp).web_fallback_called = true) :
    ∃ a, env.rag_result = .ok a ∧ env.tavily_tool = true ∧
      (pyStripStr a = "" ∨ is_rag_answer_sufficient (pyStripStr a) = false) := by
  unfold rag_branch at h
  split at h
  next exc heq =>
    split at h
    · exact absurd h (by simp)
    · split at h
      · exact absurd h (by simp)
      · exact absurd h (by simp)
  next a heq =>
    refine ⟨a, heq, ?_⟩
    split at h
    · exact absurd h (by simp)
    next hins =>
      split at h
      next htav =>
        refine ⟨htav, ?_⟩
        by_cases he : pyStripStr a = ""
        · exact Or.inl he
        · right
          by_cases hs : is_rag_answer_sufficient (pyStripStr a) = true
          · exact absurd ⟨he, hs⟩ hins
          · exact Bool.not_eq_true _ |>.mp hs
      · exact absurd h (by simp)

/-- The end-of-guide outcome resets the state and reports the end label. -/
lemma end_of_steps_fields (env : RagEnv) (p : String) :
    (end_of_steps_outcome env p).troubleshooting_state = emptyTS ∧
      (end_of_steps_outcome env p).final_answer_source = "Troubleshooting End" ∧
      (end_of_steps_outcome env p).web_fallback_called = false ∧
      (end_of_steps_outcome env p).rag_called = false := by
  unfold end_of_steps_outcome
  split <;> exact ⟨rfl, rfl, rfl, rfl⟩

/-- The active-troubleshooting branch preserves the state invariant. -/
lemma active_branch_inv (env : RagEnv) (req : ChatRequest) (p : String)
    (hinv : req.troubleshooting_state.invariant) :
    (active_branch env req p).troubleshooting_state.invariant := by
  unfold active_branch
  split
  · exact emptyTS_inv
  · split
    · split
      · exact hinv
      · rw [(end_of_steps_fields env p).1]
        exact emptyTS_inv
    · rw [rag_branch_ts]
      exact hinv

/-- The active-troubleshooting branch never reports the start label. -/
lemma active_branch_source_ne_start (env : RagEnv) (req : ChatRequest) (p : String) :
    (active_branch env req p).final_answer_source ≠ "Troubleshooting Start" := by
  unfold active_branch
  split
  · intro hc
    have hc2 : ("Troubleshooting Solved" : String) = "Troubleshooting Start" := hc
    exact absurd hc2 (by decide)
  · split
    · split
      · intro hc
        have hc2 : ("Troubleshooting Step" : String) = "Troubleshooting Start" := hc
        exact absurd hc2 (by decide)
      · rw [(end_of_steps_fields env p).2.1]
        decide
    · exact rag_branch_source_ne_start env req _

/-- The start branch always yields a state satisfying the invariant. -/
lemma start_branch_inv (env : RagEnv) (req : ChatRequest) (dp : String) :
    (start_branch env req dp).troubleshooting_state.invariant := by
  unfold start_branch
  split
  · split
    · simp [TroubleshootingState.invariant]
    · split <;> exact emptyTS_inv
  · exact emptyTS_inv

/-- When the start branch reports the start label, the returned state is
active at the detected problem. -/
lemma start_branch_start_spec (env : RagEnv) (req : ChatRequest) (dp : String)
    (h : (start_branch env req dp).final_answer_source = "Troubleshooting Start") :
    (start_branch env req dp).troubleshooting_state.is_active = true ∧
      (start_branch env req dp).troubleshooting_state.current_problem = some dp := by
  unfold start_branch at h ⊢
  split at h
  · split at h
    next hcond =>
      split
      · exact ⟨rfl, rfl⟩
      next hneg =>
        exact absurd hcond hneg
    next hcond =>
      split at h
      · have hc2 : ("Troubleshooting No Steps" : String) = "Troubleshooting Start" := h
        exact absurd hc2 (by decide)
      · have hc2 : ("Troubleshooting No Steps" : String) = "Troubleshooting Start" := h
        exact absurd hc2 (by decide)
  · have hc2 : ("Error" : String) = "Troubleshooting Start" := h
    exact absurd hc2 (by decide)

/-- Explicit success case of the start branch: a first step exists, so the
state is activated at that step with the detected problem and the start
label. -/
lemma start_branch_success (env : RagEnv) (req : ChatRequest) (dp : String)
    (e : ProblemEntry) (hlook : lookupEntry env.problem_dict dp = some e)
    (n : Nat) (t : String) (c : Option String)
    (hg : get_next_solution_step env.problem_dict dp 0 = (some n, some t, c))
    (hn : n ≠ 0) (ht : t ≠ "") :
    (start_branch env req dp).troubleshooting_state = ⟨true, some dp, n⟩ ∧
      (start_branch env req dp).final_answer_source = "Troubleshooting Start" := by
  unfold start_branch
  rw [hlook]
  dsimp only
  rw [hg]
  have h1 : optNatTruthy (some n, some t, c).1 = true := by
    simp [optNatTruthy, hn]
  have h2 : optStrTruthy (some n, some t, c).2.1 = true := by
    simp [optStrTruthy, ht]
  rw [if_pos ⟨h1, h2⟩]
  exact ⟨rfl, rfl⟩

/-! ### Wrapper lemmas for the assembled endpoint -/

/-- The final assembly never changes the troubleshooting state. -/
lemma chat_endpoint_ts (env : RagEnv) (req : ChatRequest) :
    (chat_endpoint env req).troubleshooting_state =
      (if req.force_web_search then forced_branch env req
       else regular_branch env req).troubleshooting_state := rfl

/-- The final assembly never changes the instrumentation flags. -/
lemma chat_endpoint_flags (env : RagEnv) (req : ChatRequest) :
    (chat_endpoint env req).rag_called =
        (if req.force_web_search then forced_branch env req
         else regular_branch env req).rag_called ∧
      (chat_endpoint env req).web_fallback_called =
        (if req.force_web_search then forced_branch env req
         else regular_branch env req).web_fallback_called ∧
      (chat_endpoint env req).web_forced_called =
        (if req.force_web_search then forced_branch env req
         else regular_branch env req).web_forced_called := ⟨rfl, rfl, rfl⟩

/-- The final assembly only replaces the source label when the branch
produced an empty answer. -/
lemma chat_endpoint_source (env : RagEnv) (req : ChatRequest) :
    (chat_endpoint env req).final_answer_source =
      (if (if req.force_web_search then forced_branch env req
           else regular_branch env req).answer = "" then "Error"
       else (if req.force_web_search then forced_branch env req
             else regular_branch env req).final_answer_source) := rfl

/-- The final assembly keeps a non-empty branch answer verbatim. -/
lemma chat_endpoint_answer (env : RagEnv) (req : ChatRequest) :
    (chat_endpoint env req).answer =
      (if (if req.force_web_search then forced_branch env req
           else regular_branch env req).answer = "" then
         "Sorry, I encountered an issue and couldn\x27t generate a response."
       else (if req.force_web_search then forced_branch env req
             else regular_branch env req).answer) := rfl

/-! ### Decomposition of the regular (non-forced) turn -/

/-- The RAG branch does not depend on the effective prompt it forwards to
the collaborator: the outcome is fixed by the environment. -/
lemma rag_branch_cp (env : RagEnv) (req : ChatRequest) (cp1 cp2 : String) :
    rag_branch env req cp1 = rag_branch env req cp2 := rfl

/-- When the determination phase says the retrieval call is needed, the
regular turn is exactly the RAG branch. -/
lemma regular_branch_eq_rag (env : RagEnv) (req : ChatRequest)
    (hn : needs_rag_call env req = true) :
    regular_branch env req = rag_branch env req req.prompt := by
  unfold needs_rag_call at hn
  unfold regular_branch
  by_cases hact : req.troubleshooting_state.is_active = true ∧
      optStrTruthy req.troubleshooting_state.current_problem = true
  · rw [if_pos hact] at hn ⊢
    have hs2 : is_problem_solved req.prompt = false := by
      cases hb : is_problem_solved req.prompt
      · rfl
      · rw [hb] at hn
        simp at hn
    have hns2 : is_problem_not_solved req.prompt = false := by
      cases hb : is_problem_not_solved req.prompt
      · rfl
      · rw [hb] at hn
        simp at hn
    unfold active_branch
    rw [if_neg (by rw [hs2]; exact Bool.false_ne_true),
      if_neg (by rw [hns2]; exact Bool.false_ne_true)]
    exact rag_branch_cp env req _ _
  · rw [if_neg hact] at hn ⊢
    by_cases hc2 : (!req.troubleshooting_state.is_active) = true ∧ env.problem_dict ≠ []
    · rw [if_pos hc2] at hn ⊢
      cases hdet : detect_problem req.prompt env.problem_dict with
      | none =>
        simp only [hdet] at hn ⊢
      | some dp =>
        simp only [hdet] at hn ⊢
        have hask : is_asking_for_help req.prompt = false := by
          cases hb : is_asking_for_help req.prompt
          · rfl
          · rw [hb] at hn
            simp at hn
        rw [if_neg (by rw [hask]; exact Bool.false_ne_true)]
    · rw [if_neg hc2] at hn ⊢

/-- The regular turn preserves the state invariant. -/
lemma regular_branch_inv (env : RagEnv) (req : ChatRequest)
    (hinv : req.troubleshooting_state.invariant) :
    (regular_branch env req).troubleshooting_state.invariant := by
  unfold regular_branch
  split
  · exact active_branch_inv env req _ hinv
  · split
    · split
      next dp hdet =>
        split
        · exact start_branch_inv env req _
        · rw [rag_branch_ts]
          exact hinv
      next hdet =>
        rw [rag_branch_ts]
        exact hinv
    · rw [rag_branch_ts]
      exact hinv

/-- A regular turn reporting the start label really started
troubleshooting: the detector found a catalog problem and the returned
state is active at it. -/
lemma regular_branch_start_spec (env : RagEnv) (req : ChatRequest)
    (h : (regular_branch env req).final_answer_source = "Troubleshooting Start") :
    ∃ dp, detect_problem req.prompt env.problem_dict = some dp ∧
      (regular_branch env req).troubleshooting_state.is_active = true ∧
      (regular_branch env req).troubleshooting_state.current_problem = some dp := by
  unfold regular_branch at h ⊢
  revert h
  split
  · intro h
    exact absurd h (active_branch_source_ne_start env req _)
  · split
    · split
      next dp hdet =>
        split
        · intro h
          obtain ⟨h1, h2⟩ := start_branch_start_spec env req dp h
          exact ⟨dp, hdet, h1, h2⟩
        · intro h
          exact absurd h (rag_branch_source_ne_start env req _)
      next hdet =>
        intro h
        exact absurd h (rag_branch_source_ne_start env req _)
    · intro h
      exact absurd h (rag_branch_source_ne_start env req _)

/-! ### Length accounting for the web-result formatter -/

/-- Appending one more entry to a non-empty formatted list costs exactly
one separator plus the entry. -/
lemma joinSep_append_singleton (l : List String) (e : String) (h : l ≠ []) :
    joinSep (l ++ [e]) = joinSep l ++ web_sep ++ e := by
  induction l with
  | nil => exact absurd rfl h
  | cons a as ih =>
    cases as with
    | nil => rfl
    | cons b bs =>
      have ih2 := ih (by simp)
      show a ++ web_sep ++ joinSep ((b :: bs) ++ [e]) =
        a ++ web_sep ++ joinSep (b :: bs) ++ web_sep ++ e
      rw [ih2, ← String.append_assoc, ← String.append_assoc]

/-- Length form of `joinSep_append_singleton`. -/
lemma joinSep_append_length (l : List String) (e : String) (h : l ≠ []) :
    (joinSep (l ++ [e])).length = (joinSep l).length + web_sep.length + e.length := by
  rw [joinSep_append_singleton l e h, String.length_append, String.length_append]

/-- Every formatted entry is non-empty (its head is at least `Result i:`). -/
lemma entry_full_length_pos (i : Nat) (r : WebResult) : 0 < (entry_full i r).length := by
  unfold entry_full entry_head
  rw [String.length_append, String.length_append, String.length_append,
    String.length_append, String.length_append, String.length_append]
  have h7 : (("Result " : String) ++ toString (i + 1)).length =
      7 + (toString (i + 1)).length := by
    rw [String.length_append]
    have h7l : ("Result " : String).length = 7 := by decide
    omega
  omega

/-- Invariant of the formatting loop: once a within-budget prefix has been
committed, the accumulated string never exceeds the budget. -/
lemma fmtLoop_length (max_chars : Nat) (rs : List WebResult) :
    ∀ (i : Nat) (formatted : List String) (total : Nat),
      formatted ≠ [] → (joinSep formatted).length = total → 0 < total → total ≤ max_chars →
      (joinSep (fmtLoop max_chars rs i formatted total)).length ≤ max_chars := by
  induction rs with
  | nil =>
    intro i f t h1 h2 h3 h4
    simp only [fmtLoop]
    rw [h2]
    exact h4
  | cons r rest ih =>
    intro i f t h1 h2 h3 h4
    simp only [fmtLoop]
    rw [if_neg (by omega : ¬ t = 0)]
    split
    next hfit =>
      refine ih (i + 1) (f ++ [entry_full i r]) _ (by simp) ?_ ?_ hfit
      · rw [joinSep_append_length f _ h1, h2]
      · omega
    next hnofit =>
      split
      next hshort =>
        rw [joinSep_append_length f _ h1, h2]
        exact hshort
      next =>
        rw [h2]
        exact h4

/-! ### Final helpers for the claim theorems -/

/-- A successful step fetch presupposes a successful catalog lookup. -/
lemma get_next_some_lookup (pd : List (String × ProblemEntry)) (name : String) (cur n : Nat)
    (t : String) (c : Option String)
    (hg : get_next_solution_step pd name cur = (some n, some t, c)) :
    ∃ e, lookupEntry pd name = some e := by
  unfold get_next_solution_step at hg
  cases hl : lookupEntry pd name with
  | none =>
    rw [hl] at hg
    exact absurd hg (by simp)
  | some e =>
    exact ⟨e, rfl⟩

/-- A failed retrieval call always produces a non-empty error answer. -/
lemma rag_branch_error_answer_ne (env : RagEnv) (req : ChatRequest) (cp : String)
    (exc : PyExc) (h : env.rag_result = .error exc) :
    (rag_branch env req cp).answer ≠ "" := by
  unfold rag_branch
  rw [h]
  dsimp only
  split
  · exact append_ne_empty_left _ _ (by decide)
  · split
    · exact append_ne_empty_left _ _ (by decide)
    · exact append_ne_empty_left _ _ (append_ne_empty_left _ _ (by decide))

/-- When the start conditions all hold, the regular turn is exactly the
start branch on the detected problem. -/
lemma regular_branch_eq_start (env : RagEnv) (req : ChatRequest) (dp : String)
    (h1 : req.troubleshooting_state.is_active = false)
    (h2 : env.problem_dict ≠ [])
    (hdet : detect_problem req.prompt env.problem_dict = some dp)
    (hask : is_asking_for_help req.prompt = true) :
    regular_branch env req = start_branch env req dp := by
  unfold regular_branch
  rw [if_neg (fun hc => by rw [h1] at hc; exact Bool.false_ne_true hc.1)]
  rw [if_pos ⟨by rw [h1]; rfl, h2⟩]
  simp only [hdet]
  rw [if_pos hask]

/-! ### Claim theorems -/

/-- C1: For every turn in the RAG strategy, a raised retrieval exception is
classified (quota exhaustion, directly or via the cause chain, yields
source `Error (Rate Limited)`; anything else `Error (RAG Failure)`) and the
web-search fallback is never invoked for that turn; the fallback is
attempted only when retrieval succeeded and its stripped answer was empty
or judged insufficient. -/
theorem C1_rag_failure_classification (env : RagEnv) (req : ChatRequest)
    (hf : req.force_web_search = false) (hn : needs_rag_call env req = true) :
    (∀ exc, env.rag_result = .error exc →
      (chat_endpoint env req).final_answer_source =
        (if exc.isResourceExhausted || exc.causeResourceExhausted then "Error (Rate Limited)"
         else "Error (RAG Failure)") ∧
      (chat_endpoint env req).web_fallback_called = false) ∧
    ((chat_endpoint env req).web_fallback_called = true →
      ∃ a, env.rag_result = .ok a ∧
        (pyStripStr a = "" ∨ is_rag_answer_sufficient (pyStripStr a) = false)) := by
  have hcore : (if req.force_web_search then forced_branch env req else regular_branch env req) =
      rag_branch env req req.prompt := by
    rw [hf]
    rw [if_neg (by decide : ¬(false = true))]
    exact regular_branch_eq_rag env req hn
  constructor
  · intro exc he
    have hspec := rag_branch_error_spec env req req.prompt exc he
    have hans := rag_branch_error_answer_ne env req req.prompt exc he
    constructor
    · rw [chat_endpoint_source, hcore, if_neg hans]
      exact hspec.1
    · rw [(chat_endpoint_flags env req).2.1, hcore]
      exact hspec.2
  · intro hw
    rw [(chat_endpoint_flags env req).2.1, hcore] at hw
    obtain ⟨a, ha, _, hcond⟩ := rag_branch_fallback_spec env req req.prompt hw
    exact ⟨a, ha, hcond⟩

/-- Witness for C1 at a concrete turn: a quota-exhaustion failure of the
retrieval chain on a plain request is labelled rate-limited and the
fallback is skipped even though the web tool is configured. -/
theorem C1_witness :
    (chat_endpoint envRL reqPlain).final_answer_source = "Error (Rate Limited)" ∧
      (chat_endpoint envRL reqPlain).web_fallback_called = false := by
  have h := (C1_rag_failure_classification envRL reqPlain rfl (by decide)).1 excRL rfl
  refine ⟨?_, h.2⟩
  rw [h.1]
  decide

/-- C2: The start-troubleshooting strategy is selected exactly when
troubleshooting is inactive, the catalog is non-empty, `detect_problem`
finds a match, and `is_asking_for_help` holds of the prompt; and when a
first non-empty step additionally exists, the returned state is active at
the detected problem with that step's 1-based index, under the source
label `Troubleshooting Start`.  Detection without help-seeking phrasing
therefore never activates guided mode. -/
theorem C2_start_selection (env : RagEnv) (req : ChatRequest) :
    (response_strategy env req = "start_troubleshooting" ↔
      (req.troubleshooting_state.is_active = false ∧ env.problem_dict ≠ [] ∧
        (∃ dp, detect_problem req.prompt env.problem_dict = some dp) ∧
        is_asking_for_help req.prompt = true)) ∧
    (∀ dp n t c, req.force_web_search = false →
      req.troubleshooting_state.is_active = false →
      env.problem_dict ≠ [] →
      detect_problem req.prompt env.problem_dict = some dp →
      is_asking_for_help req.prompt = true →
      get_next_solution_step env.problem_dict dp 0 = (some n, some t, c) →
      (chat_endpoint env req).troubleshooting_state =
        ⟨true, some dp, n⟩ ∧
      (chat_endpoint env req).final_answer_source = "Troubleshooting Start") := by
  constructor
  · constructor
    · intro h
      unfold response_strategy at h
      by_cases hact : req.troubleshooting_state.is_active = true ∧
          optStrTruthy req.troubleshooting_state.current_problem = true
      · rw [if_pos hact] at h
        split at h
        · exact absurd h (by decide)
        · split at h
          · exact absurd h (by decide)
          · exact absurd h (by decide)
      · rw [if_neg hact] at h
        by_cases hc2 : (!req.troubleshooting_state.is_active) = true ∧ env.problem_dict ≠ []
        · rw [if_pos hc2] at h
          cases hdet : detect_problem req.prompt env.problem_dict with
          | none =>
            simp only [hdet] at h
            exact absurd h (by decide)
          | some dp =>
            simp only [hdet] at h
            by_cases hask : is_asking_for_help req.prompt = true
            · have hia : req.troubleshooting_state.is_active = false := by
                cases hb : req.troubleshooting_state.is_active
                · rfl
                · rw [hb] at hc2
                  exact absurd hc2.1 (by decide)
              exact ⟨hia, hc2.2, ⟨dp, rfl⟩, hask⟩
            · rw [if_neg hask] at h
              exact absurd h (by decide)
        · rw [if_neg hc2] at h
          exact absurd h (by decide)
    · rintro ⟨h1, h2, ⟨dp, hdet⟩, hask⟩
      unfold response_strategy
      rw [if_neg (fun hc => by rw [h1] at hc; exact Bool.false_ne_true hc.1)]
      rw [if_pos ⟨by rw [h1]; rfl, h2⟩]
      simp only [hdet]
      rw [if_pos hask]
  · intro dp n t c hf h1 h2 hdet hask hg
    obtain ⟨e, hlook⟩ := get_next_some_lookup env.problem_dict dp 0 n t c hg
    obtain ⟨hc, hlt, _, _, hne, _⟩ := get_next_some_spec env.problem_dict dp e 0 hlook n t c hg
    have hcore : (if req.force_web_search then forced_branch env req
        else regular_branch env req) = start_branch env req dp := by
      rw [hf]
      rw [if_neg (by decide : ¬(false = true))]
      exact regular_branch_eq_start env req dp h1 h2 hdet hask
    obtain ⟨hts, hsrc⟩ := start_branch_success env req dp e hlook n t c hg
      (by omega) hne
    constructor
    · rw [chat_endpoint_ts, hcore, hts]
    · have hans : (start_branch env req dp).answer ≠ "" := by
        unfold start_branch
        rw [hlook]
        dsimp only
        rw [hg]
        rw [if_pos ⟨by simp [optNatTruthy]; omega, by simp [optStrTruthy, hne]⟩]
        repeat apply append_ne_empty_left
        decide
      rw [chat_endpoint_source, hcore, if_neg hans]
      exact hsrc

/-- Witness for C2 at the specification scenario: the prompt asks how to
fix a catalogued problem, so guided mode starts at step 1. -/
theorem C2_witness :
    (chat_endpoint envStart reqStart).troubleshooting_state =
      ⟨true, some "pump overheating", 1⟩ ∧
      (chat_endpoint envStart reqStart).final_answer_source = "Troubleshooting Start" :=
  (C2_start_selection envStart reqStart).2 "pump overheating" 1 "Check coolant level"
    (some "Low coolant") rfl rfl (by decide) (by decide) (by decide) (by decide)

/-- C3 counterexample: contrary to the claim, `is_problem_solved` returns
true on the input `it's not fixed yet` — the solved word `fixed` matches a
solved pattern, and the source deliberately lets solved wording override a
detected negation (rag_core.py lines 347-353). -/
theorem C3_counterexample :
    is_problem_solved ("it\x27s not fixed yet") = true := by decide

/-- C3 as amended: `is_problem_solved` is false on `no`, true on `it is
fixed now`, TRUE on `it's not fixed yet` (the solved word overrides the
negation), and false when a negation appears with no solved wording at
all, as in `it's not helping yet`. -/
theorem C3_solved_classifier_amended :
    is_problem_solved ("no") = false ∧
      is_problem_solved ("it is fixed now") = true ∧
      is_problem_solved ("it\x27s not fixed yet") = true ∧
      is_problem_solved ("it\x27s not helping yet") = false := by
  refine ⟨by decide, by decide, by decide, by decide⟩

/-- C4: the two troubleshooting-progress classifiers are mutually
exclusive — whenever `is_problem_solved` holds, `is_problem_not_solved` is
false, because the latter re-runs the solved check on the normalised text
first and normalisation is idempotent. -/
theorem C4_mutual_exclusion (text : String) (h : is_problem_solved text = true) :
    is_problem_not_solved text = false := by
  simp only [is_problem_not_solved]
  rw [is_problem_solved_norm text, h]
  simp

/-- Witness for C4 at a concrete solved utterance. -/
theorem C4_witness :
    is_problem_solved ("it is fixed now") = true ∧
      is_problem_not_solved ("it is fixed now") = false :=
  ⟨by decide, C4_mutual_exclusion ("it is fixed now") (by decide)⟩

/-- C5: for every catalogued problem and every current index,
`get_next_solution_step` returns the smallest step index strictly greater
than the current one (up to the configured maximum) whose stripped text is
non-empty, together with that text and the possible cause — skipping empty
intermediate steps — and returns `(none, none, cause)` exactly when no
later index carries non-empty text. -/
theorem C5_next_step_spec (pd : List (String × ProblemEntry)) (name : String)
    (e : ProblemEntry) (cur : Nat) (h : lookupEntry pd name = some e) :
    (∀ n t c, get_next_solution_step pd name cur = (some n, some t, c) →
      c = some e.possible_cause ∧ cur < n ∧ n ≤ MAX_SOLUTION_STEPS ∧
        t = pyStripStr (e.step n) ∧ t ≠ "" ∧
        ∀ j, cur < j → j < n → pyStripStr (e.step j) = "") ∧
    (get_next_solution_step pd name cur = (none, none, some e.possible_cause) ↔
      ∀ j, cur < j → j ≤ MAX_SOLUTION_STEPS → pyStripStr (e.step j) = "") :=
  ⟨fun n t c hg => get_next_some_spec pd name e cur h n t c hg,
    get_next_none_spec pd name e cur h⟩

/-- Witness for C5 at a catalog whose first step is empty and second
populated: the fetch from index 0 lands on step 2, and the skipped step 1
is indeed empty. -/
theorem C5_witness :
    (0 : Nat) < 2 ∧ pyStripStr (entGap.step 1) = "" ∧
      "Inspect impeller" = pyStripStr (entGap.step 2) := by
  have h := (C5_next_step_spec pdGap "pump overheating" entGap 0 (by decide)).1
    2 "Inspect impeller" (some "Low coolant") (by decide)
  exact ⟨h.2.1, h.2.2.2.2.2 1 (by decide) (by decide), h.2.2.2.1⟩

/-- C6: for every turn whose input troubleshooting state satisfies the
invariant (`current_problem` set iff `is_active`), the returned state also
satisfies it; and, on a regular turn, whenever the engine reports the
`Troubleshooting Start` label, the returned state is active at a problem
that is a key of the catalog. -/
theorem C6_state_invariant (env : RagEnv) (req : ChatRequest)
    (hinv : req.troubleshooting_state.invariant) :
    (chat_endpoint env req).troubleshooting_state.invariant ∧
    (req.force_web_search = false →
      (chat_endpoint env req).final_answer_source = "Troubleshooting Start" →
      ∃ dp, (chat_endpoint env req).troubleshooting_state.is_active = true ∧
        (chat_endpoint env req).troubleshooting_state.current_problem = some dp ∧
        dp ∈ env.problem_dict.map Prod.fst) := by
  constructor
  · rw [chat_endpoint_ts]
    by_cases hf : req.force_web_search = true
    · rw [if_pos hf, forced_branch_ts]
      exact emptyTS_inv
    · rw [if_neg hf]
      exact regular_branch_inv env req hinv
  · intro hf hsrc
    have hcore : (if req.force_web_search then forced_branch env req
        else regular_branch env req) = regular_branch env req := by
      rw [hf]
      rw [if_neg (by decide : ¬(false = true))]
    rw [chat_endpoint_source, hcore] at hsrc
    have hsrc2 : (regular_branch env req).final_answer_source = "Troubleshooting Start" := by
      by_cases ha : (regular_branch env req).answer = ""
      · rw [if_pos ha] at hsrc
        exact absurd hsrc (by decide)
      · rw [if_neg ha] at hsrc
        exact hsrc
    obtain ⟨dp, hdet, h1, h2⟩ := regular_branch_start_spec env req hsrc2
    refine ⟨dp, ?_, ?_, detect_problem_mem req.prompt env.problem_dict dp hdet⟩
    · rw [chat_endpoint_ts, hcore]
      exact h1
    · rw [chat_endpoint_ts, hcore]
      exact h2

/-- Witness for C6 at the start scenario: the default (inactive) input
state satisfies the invariant, and so does the activated output state. -/
theorem C6_witness :
    (chat_endpoint envStart reqStart).troubleshooting_state.invariant :=
  (C6_state_invariant envStart reqStart emptyTS_inv).1

/-- C7: the sufficiency judge rejects the empty answer; rejects any answer
whose lower-cased text contains an insufficiency phrasing; and accepts
every non-empty answer free of such phrasings, however short — length
alone never forces rejection. -/
theorem C7_sufficiency_judge :
    is_rag_answer_sufficient "" = false ∧
      is_rag_answer_sufficient ("I don\x27t have enough information about that system.") = false ∧
      (∀ t, searchAny insufficient_patterns (lowerData t) = true →
        is_rag_answer_sufficient t = false) ∧
      (∀ t, t ≠ "" → searchAny insufficient_patterns (lowerData t) = false →
        is_rag_answer_sufficient t = true) := by
  refine ⟨by decide, by decide, ?_, ?_⟩
  · intro t hm
    unfold is_rag_answer_sufficient
    by_cases he : t = ""
    · rw [if_pos he]
    · rw [if_neg he, if_pos hm]
  · intro t he hm
    unfold is_rag_answer_sufficient
    rw [if_neg he, if_neg (by rw [hm]; exact Bool.false_ne_true)]

/-- Witness for C7: a pattern-free answer is sufficient, and so is one
shorter than the 50-character logging threshold. -/
theorem C7_witness :
    is_rag_answer_sufficient ("Step 1: Replace the fuel filter. Step 2: Bleed the line.") = true ∧
      is_rag_answer_sufficient ("Replace the fuel filter.") = true :=
  ⟨C7_sufficiency_judge.2.2.2 ("Step 1: Replace the fuel filter. Step 2: Bleed the line.")
      (by decide) (by decide),
    C7_sufficiency_judge.2.2.2 ("Replace the fuel filter.") (by decide) (by decide)⟩

/-- C8 as amended, for non-empty result lists: when the first formatted
entry fits the budget the output never exceeds `max_chars` (whole entries
are added greedily with separator overhead, a later overflowing entry is
retried title-only, then inclusion stops); when the first entry alone
exceeds the budget the output is exactly the single truncated first entry,
so any overflow is that entry's unavoidable overflow. -/
theorem C8_format_budget_amended (r : WebResult) (rest : List WebResult) (max_chars : Nat) :
    ((entry_full 0 r).length ≤ max_chars →
      (format_web_results_for_llm (r :: rest) max_chars).length ≤ max_chars) ∧
    (max_chars < (entry_full 0 r).length →
      format_web_results_for_llm (r :: rest) max_chars = truncated_first 0 r max_chars) := by
  constructor
  · intro hfit
    unfold format_web_results_for_llm
    rw [if_neg (by simp)]
    simp only [fmtLoop]
    rw [if_pos trivial, if_pos hfit]
    refine fmtLoop_length max_chars rest 1 [entry_full 0 r] _ (by simp) (by simp [joinSep]) ?_ ?_
    · have := entry_full_length_pos 0 r
      omega
    · omega
  · intro hlong
    unfold format_web_results_for_llm
    rw [if_neg (by simp)]
    simp only [fmtLoop]
    rw [if_pos trivial, if_neg (by omega)]
    show joinSep ([] ++ [truncated_first 0 r max_chars]) = _
    simp [joinSep]

/-- C8 counterexample to the claim as frozen (which quantifies over every
list): on the empty list the formatter returns the fixed no-results
message whatever the budget, exceeding a budget of 5 although no truncated
first entry exists. -/
theorem C8_counterexample :
    format_web_results_for_llm [] 5 = "No web search results found." ∧
      5 < (format_web_results_for_llm [] 5).length := ⟨rfl, by decide⟩

/-- Witness for C8 at a small result list that fits its budget. -/
theorem C8_witness :
    (format_web_results_for_llm [resEx] 100).length ≤ 100 :=
  (C8_format_budget_amended resEx [] 100).1 (by decide)

/-- C9: a forced-web-search turn always returns the empty troubleshooting
state, whatever state came in; and when the web-search tool is not
configured the turn short-circuits with the disabled message and the
`Web Search Disabled` label, invoking no collaborator. -/
theorem C9_forced_web_search (env : RagEnv) (req : ChatRequest)
    (hf : req.force_web_search = true) :
    (chat_endpoint env req).troubleshooting_state = emptyTS ∧
    (env.tavily_tool = false →
      (chat_endpoint env req).answer = disabled_msg ∧
      (chat_endpoint env req).final_answer_source = "Web Search Disabled" ∧
      (chat_endpoint env req).rag_called = false ∧
      (chat_endpoint env req).web_forced_called = false ∧
      (chat_endpoint env req).web_fallback_called = false) := by
  have hcore : (if req.force_web_search then forced_branch env req
      else regular_branch env req) = forced_branch env req := by
    rw [hf]
    rw [if_pos rfl]
  constructor
  · rw [chat_endpoint_ts, hcore, forced_branch_ts]
  · intro ht
    have hfb : forced_branch env req =
        { answer := disabled_msg, troubleshooting_state := emptyTS,
          final_answer_source := "Web Search Disabled" } := by
      unfold forced_branch
      rw [if_pos (by rw [ht]; rfl)]
    refine ⟨?_, ?_, ?_, ?_, ?_⟩
    · rw [chat_endpoint_answer, hcore, hfb]
      rw [if_neg (by decide)]
    · rw [chat_endpoint_source, hcore, hfb]
      rw [if_neg (by decide)]
    · rw [(chat_endpoint_flags env req).1, hcore, hfb]
    · rw [(chat_endpoint_flags env req).2.2, hcore, hfb]
    · rw [(chat_endpoint_flags env req).2.1, hcore, hfb]

/-- Witness for C9: with web search unconfigured, a forced turn arriving
mid-troubleshooting resets the state and reports the disabled label. -/
theorem C9_witness :
    (chat_endpoint envNoTavily reqForced).troubleshooting_state = emptyTS ∧
      (chat_endpoint envNoTavily reqForced).answer = disabled_msg ∧
      (chat_endpoint envNoTavily reqForced).final_answer_source = "Web Search Disabled" := by
  have h := C9_forced_web_search envNoTavily reqForced rfl
  exact ⟨h.1, (h.2 rfl).1, (h.2 rfl).2.1⟩

/-- C10: `detect_problem` only ever returns a key of the catalog it was
given (so a returned name always looks up successfully), and returns
`none` without failing on an empty text or an empty catalog — through all
three matching stages. -/
theorem C10_detect_membership (text : String) (problems : List (String × ProblemEntry)) :
    (∀ k, detect_problem text problems = some k → k ∈ problems.map Prod.fst) ∧
    (text = "" → detect_problem text problems = none) ∧
    (problems = [] → detect_problem text problems = none) := by
  refine ⟨fun k => detect_problem_mem text problems k, ?_, ?_⟩
  · intro ht
    unfold detect_problem
    rw [if_pos (Or.inr ht)]
  · intro hp
    unfold detect_problem
    rw [if_pos (Or.inl (by rw [hp]; rfl))]

/-- Witness for C10: the detected name of the start scenario is a key of
its catalog, and the empty text detects nothing. -/
theorem C10_witness :
    "pump overheating" ∈ pdEx.map Prod.fst ∧ detect_problem "" pdEx = none :=
  ⟨(C10_detect_membership ("how do I fix pump overheating") pdEx).1 "pump overheating" (by decide),
    (C10_detect_membership "" pdEx).2.1 rfl⟩
